import Mathlib

/-
Shallow embedding of the rust-state-sync repository:
  src/server/src/main.rs  (GameServer: admission, dedup state, move handling,
                           snapshot encoding, run loop)
  src/client/src/main.rs  (GameClient: send_message, snapshot decoding)

Modelling conventions:
  * Rust `&str`/`String` values are modelled as `List Char` (the wire data is
    ASCII, so byte indices coincide with character indices).
  * `u8`/`u16`/`u32` are modelled as `Nat` with explicit range checks where the
    source behaviour depends on them (number parsing, `wrapping_add`);
    `i32` scores are modelled as `Int`.
  * Rust `HashMap` is modelled as an association list with insert-replace
    semantics.  Rust's HashMap iteration order is unspecified; the model fixes
    one deterministic order (only iteration for encoding depends on it, and no
    theorem below depends on the order of a map with more than one entry).
  * A Rust panic (integer-subtraction overflow on `usize`, out-of-bounds
    slicing/indexing) is modelled as `Option.none`; normal completion,
    including an early `return`, is `Option.some`.
  * Transport endpoints are identified by their port, exactly as the server
    does (`addr.port()`); `Instant` timestamps (`last_seen`) carry no
    game-visible information and are omitted from the `Client` record.
-/

abbrev Str := List Char

/-- Character data of a string literal (all wire strings are ASCII). -/
def chars (s : String) : Str := s.data

/-- Rust `str::starts_with` on character lists. -/
def listIsPfx : Str → Str → Bool
  | [], _ => true
  | _ :: _, [] => false
  | a :: as, b :: bs => a == b && listIsPfx as bs

/-- Substring test used for Rust `str::contains` (pattern, haystack). -/
def listIsInf (p : Str) : Str → Bool
  | [] => listIsPfx p []
  | c :: t => listIsPfx p (c :: t) || listIsInf p t

/-- Rust `haystack.contains(pat)`. -/
def strContains (haystack pat : Str) : Bool := listIsInf pat haystack

/-- Rust `str::split(sep)`: splits on every occurrence; `""` yields `[""]`. -/
def splitOnC (sep : Char) : Str → List Str
  | [] => [[]]
  | c :: t =>
    if c == sep then [] :: splitOnC sep t
    else
      match splitOnC sep t with
      | [] => [[c]]
      | h :: r => (c :: h) :: r

/-- Rust `str::splitn(2, sep)`: splits at the first occurrence only. -/
def splitn2 (sep : Char) : Str → List Str
  | [] => [[]]
  | c :: t =>
    if c == sep then [[], t]
    else
      match splitn2 sep t with
      | [] => [[c]]
      | h :: r => (c :: h) :: r

/-- Rust `str::trim` (whitespace at both ends). -/
def trimStr (l : Str) : Str :=
  ((l.dropWhile Char.isWhitespace).reverse.dropWhile Char.isWhitespace).reverse

/-- Value of a decimal digit string. -/
def decValue (l : Str) : Nat := l.foldl (fun a c => a * 10 + (c.toNat - 48)) 0

/-- Parse a non-empty all-digit string (the core of Rust integer parsing). -/
def parseDigits (l : Str) : Option Nat :=
  if l ≠ [] ∧ l.all Char.isDigit then some (decValue l) else none

/-- Rust unsigned integer parsing: optional leading `+`, digits, range check. -/
def rustParseUnsigned (bound : Nat) (l : Str) : Option Nat :=
  let core := match l with
    | '+' :: t => parseDigits t
    | _ => parseDigits l
  match core with
  | some n => if n < bound then some n else none
  | none => none

def rustParseU8 (l : Str) : Option Nat := rustParseUnsigned (2 ^ 8) l

def rustParseU16 (l : Str) : Option Nat := rustParseUnsigned (2 ^ 16) l

def rustParseU32 (l : Str) : Option Nat := rustParseUnsigned (2 ^ 32) l

/-- Rust `i32` parsing: optional sign, digits, range check. -/
def rustParseI32 (l : Str) : Option Int :=
  match l with
  | '-' :: t =>
    match parseDigits t with
    | some n => if n ≤ 2 ^ 31 then some (-(n : Int)) else none
    | none => none
  | '+' :: t =>
    match parseDigits t with
    | some n => if n < 2 ^ 31 then some (n : Int) else none
    | none => none
  | _ =>
    match parseDigits l with
    | some n => if n < 2 ^ 31 then some (n : Int) else none
    | none => none

/-- Decimal rendering of a `Nat` (Rust `format!` with `{}`). -/
def natToStr (n : Nat) : Str := (Nat.repr n).data

/-- Decimal rendering of an `Int` (Rust `format!` with `{}` on `i32`). -/
def intToStr (i : Int) : Str :=
  match i with
  | Int.ofNat n => natToStr n
  | Int.negSucc n => '-' :: natToStr (n + 1)

/-- Rust byte slice `t[1..t.len()-1]`; `none` models the panic that the
slicing raises when `t.len() = 0` (usize subtraction overflow) or
`t.len() = 1` (range starts at 1 but ends at 0). -/
def sliceInner (l : Str) : Option Str :=
  if 2 ≤ l.length then some ((l.drop 1).take (l.length - 2)) else none

/-- Rust `Vec::join` / iterator `join(sep)`. -/
def intercal (sep : Str) : List Str → Str
  | [] => []
  | [x] => x
  | x :: xs => x ++ sep ++ intercal sep xs

/-- Association-list lookup, modelling `HashMap::get`. -/
def lookupA {α : Type} (k : Nat) : List (Nat × α) → Option α
  | [] => none
  | (k0, v) :: t => if k0 = k then some v else lookupA k t

/-- Association-list insert with replacement, modelling `HashMap::insert`. -/
def insertA {α : Type} (k : Nat) (v : α) : List (Nat × α) → List (Nat × α)
  | [] => [(k, v)]
  | (k0, v0) :: t => if k0 = k then (k, v) :: t else (k0, v0) :: insertA k v t

/-- In-place update through `HashMap::get_mut` (no effect on a missing key). -/
def updateA {α : Type} (k : Nat) (v : α) : List (Nat × α) → List (Nat × α)
  | [] => []
  | (k0, v0) :: t => if k0 = k then (k, v) :: t else (k0, v0) :: updateA k v t

/-- server/src/main.rs `PlayerState`. -/
structure PlayerState where
  x : Nat
  y : Nat
  score : Int
deriving DecidableEq

/-- server/src/main.rs `Client` (the `last_seen : Instant` field is pure
wall-clock data and is omitted; `addr` is reduced to its port, the key the
server itself uses). -/
structure Client where
  last_sequence : Nat
  addr : Nat
deriving DecidableEq

/-- server/src/main.rs `GameState`. -/
structure GameState where
  grid_width : Nat
  grid_height : Nat
  players : List (Nat × PlayerState)
  treasures : List (Nat × Nat)
  traps : List (Nat × Nat)
  time_remaining : Nat
deriving DecidableEq

/-- server/src/main.rs `GameServer` (socket and receive buffer are I/O plumbing
and are omitted; outgoing datagrams are returned explicitly as
`(destination port, payload)` pairs). -/
structure ServerState where
  clients : List (Nat × Client)
  game_state : GameState
deriving DecidableEq

def MAX_CLIENTS : Nat := 3

/-- `GameServer::new()`: the initial world. -/
def initServer : ServerState :=
  { clients := []
    game_state :=
      { grid_width := 10
        grid_height := 10
        players := []
        treasures := [(2, 3), (5, 5)]
        traps := [(3, 3), (6, 6)]
        time_remaining := 60 } }

/-- `GameServer::handle_connect`. -/
def handle_connect (s : ServerState) (port : Nat) : ServerState × List (Nat × Str) :=
  if s.clients.length < MAX_CLIENTS then
    ({ clients := insertA port { last_sequence := 0, addr := port } s.clients
       game_state := { s.game_state with
         players := insertA port { x := 0, y := 0, score := 0 } s.game_state.players } },
     [(port, chars "ACK:connect")])
  else
    (s, [])

/-- `GameServer::parse_message`: `splitn(2, ':')`, two fields, `u32` sequence. -/
def parse_message (message : Str) : Option (Nat × Str) :=
  match splitn2 ':' message with
  | [a, b] =>
    match rustParseU32 a with
    | some sequence => some (sequence, b)
    | none => none
  | _ => none

/-- The `match direction.as_str()` block of `handle_message`: clamped moves. -/
def movePlayer (g : GameState) (player : PlayerState) (direction : Str) : PlayerState :=
  if direction = ['W'] then
    (if player.y > 0 then { player with y := player.y - 1 } else player)
  else if direction = ['A'] then
    (if player.x > 0 then { player with x := player.x - 1 } else player)
  else if direction = ['S'] then
    (if player.y < g.grid_height - 1 then { player with y := player.y + 1 } else player)
  else if direction = ['D'] then
    (if player.x < g.grid_width - 1 then { player with x := player.x + 1 } else player)
  else player

/-- The treasure/trap block of `handle_message`: both `if`s run in sequence on
the player's (already moved) position; `retain` keeps entries different from
that position.  Returns the updated player, treasures and traps. -/
def resolveCollision (g : GameState) (p1 : PlayerState) :
    PlayerState × List (Nat × Nat) × List (Nat × Nat) :=
  let step1 :=
    if (p1.x, p1.y) ∈ g.treasures then
      ({ p1 with score := p1.score + 10 }, g.treasures.filter (fun pos => pos ≠ (p1.x, p1.y)))
    else (p1, g.treasures)
  let p2 := step1.1
  let step2 :=
    if (p2.x, p2.y) ∈ g.traps then
      ({ p2 with score := 0 }, g.traps.filter (fun pos => pos ≠ (p2.x, p2.y)))
    else (p2, g.traps)
  (step2.1, step1.2, step2.2)

/-- `GameServer::handle_message`: connect detection, ack, move handling.
Returns the new server state and the datagrams sent. -/
def handle_message (s : ServerState) (message : Str) (port : Nat) :
    ServerState × List (Nat × Str) :=
  if strContains message (chars ":connect") then
    handle_connect s port
  else
    match parse_message message with
    | some (sequence, content) =>
      let out := [(port, chars "ACK:" ++ natToStr sequence)]
      if listIsPfx (chars "MOVE:") content then
        match lookupA port s.game_state.players with
        | some player =>
          let moved := movePlayer s.game_state player (content.drop 5)
          let res := resolveCollision s.game_state moved
          ({ s with game_state := { s.game_state with
               players := updateA port res.1 s.game_state.players
               treasures := res.2.1
               traps := res.2.2 } }, out)
        | none => (s, out)
      else (s, out)
    | none => (s, [])

/-- Formatting of one `(x, y)` cell inside `broadcast_game_state`. -/
def cellStr (c : Nat × Nat) : Str :=
  chars "(" ++ natToStr c.1 ++ chars ", " ++ natToStr c.2 ++ chars ")"

/-- The snapshot record built by `GameServer::broadcast_game_state`. -/
def encode_game_state (g : GameState) : Str :=
  chars "GAME_STATE|TIME:" ++ natToStr g.time_remaining ++ chars "|" ++
  intercal (chars "|")
    (g.players.map (fun p =>
      chars "P" ++ natToStr p.1 ++ chars ":(" ++ natToStr p.2.x ++ chars ", " ++
      natToStr p.2.y ++ chars ", " ++ intToStr p.2.score ++ chars ")")) ++
  chars "|TREASURES:" ++ intercal (chars ",") (g.treasures.map cellStr) ++
  chars "|TRAPS:" ++ intercal (chars ",") (g.traps.map cellStr)

/-- `GameServer::broadcast_game_state`: the same record to every client. -/
def broadcast_game_state (s : ServerState) : List (Nat × Str) :=
  s.clients.map (fun c => (c.2.addr, encode_game_state s.game_state))

/-- Reachable server states of `GameServer::run`: each loop iteration receives
one datagram from some source and runs `handle_message` on it;
`broadcast_game_state` does not change the state. -/
inductive Reach : ServerState → Prop
  | init : Reach initServer
  | step (s : ServerState) (m : Str) (p : Nat) : Reach s → Reach (handle_message s m p).1

/-- client/src/main.rs `GameClient`, restricted to the fields read or written
by `parse_game_state` (socket, sequence counter and ack set are separate
concerns; the local port stands for `socket.local_addr().unwrap().port()`). -/
structure ClientView where
  local_port : Nat
  player_state : PlayerState
  players : List (Nat × PlayerState)
  treasures : List (Nat × Nat)
  traps : List (Nat × Nat)
  time_remaining : Nat
deriving DecidableEq

/-- One iteration of the player loop in `parse_game_state`
(`for player_str in parts[2].split('|')`).  The accumulator holds the players
map being rebuilt and the local `player_state`; `none` models the panic of
`pos[1..pos.len() - 1]`. -/
def parsePlayerEntry (local_port : Nat) (acc : List (Nat × PlayerState) × PlayerState)
    (player_str : Str) : Option (List (Nat × PlayerState) × PlayerState) :=
  if listIsPfx (chars "P") player_str then
    let player_data := splitOnC ':' (player_str.drop 1)
    match player_data.get? 0, player_data.get? 1 with
    | some idStr, some pos =>
      let id := (rustParseU16 idStr).getD 0
      match sliceInner pos with
      | none => none
      | some mid =>
        match splitOnC ',' mid with
        | [c0, c1, c2] =>
          let x := (rustParseU8 (trimStr c0)).getD 0
          let y := (rustParseU8 (trimStr c1)).getD 0
          let score := (rustParseI32 (trimStr c2)).getD 0
          let ps : PlayerState := { x := x, y := y, score := score }
          some (insertA id ps acc.1, if id = local_port then ps else acc.2)
        | _ => some acc
    | _, _ => some acc
  else some acc

/-- One element of the treasure/trap `filter_map` closures of
`parse_game_state`: `some none` is a filtered-out element, the outer `none`
models the panic of `t[1..t.len() - 1]`. -/
def parseCellPiece (t : Str) : Option (Option (Nat × Nat)) :=
  match sliceInner t with
  | none => none
  | some mid =>
    match splitOnC ',' mid with
    | [a, b] => some (some ((rustParseU8 (trimStr a)).getD 0, (rustParseU8 (trimStr b)).getD 0))
    | _ => some none

/-- `parts[i].split(',').filter_map(...).collect()` for treasures and traps. -/
def parseCellList (s : Str) : Option (List (Nat × Nat)) :=
  ((splitOnC ',' s).mapM parseCellPiece).map (fun l => l.filterMap id)

/-- `GameClient::parse_game_state`.  `none` models a panic
(`t[1..t.len()-1]` on a too-short piece, or the `parts[4]` index being out of
bounds); `some` is normal completion, including the early `return` when the
record has fewer than four `|`-separated segments. -/
def parse_game_state (c : ClientView) (state : Str) : Option ClientView :=
  let parts := splitOnC '|' state
  if parts.length < 4 then some c
  else
    let tstr := (splitOnC ':' (parts.getD 1 [])).getD 1 (chars "0")
    let c1 := match rustParseU32 tstr with
      | some t => { c with time_remaining := t }
      | none => c
    match (splitOnC '|' (parts.getD 2 [])).foldlM (parsePlayerEntry c1.local_port)
        ([], c1.player_state) with
    | none => none
    | some rebuilt =>
      match parseCellList (parts.getD 3 []) with
      | none => none
      | some ts =>
        match parts.get? 4 with
        | none => none
        | some p4 =>
          match parseCellList p4 with
          | none => none
          | some trs =>
            some { c1 with
              players := rebuilt.1
              player_state := rebuilt.2
              treasures := ts
              traps := trs }

/-- The sequence-counter state of `GameClient::send_message`
(`sequence_number : u32`). -/
structure SendState where
  sequence_number : Nat
deriving DecidableEq

/-- `GameClient::send_message`: wrapping-increment the sequence, format
`"{seq}:{message}"`, transmit one datagram, return.  The returned list holds
the datagrams this call puts on the wire. -/
def send_message (st : SendState) (message : Str) : SendState × List Str :=
  let seq := (st.sequence_number + 1) % 2 ^ 32
  ({ sequence_number := seq }, [natToStr seq ++ ':' :: message])

/-- Spec-side definition, following the spec's words for `applyMove`
(§4.4): W, A, S, D shift by (Δy=-1), (Δx=-1), (Δy=+1), (Δx=+1), clamped at
the grid edges with no wraparound. -/
def specMovedPos (g : GameState) (pl : PlayerState) (dir : Str) : Nat × Nat :=
  if dir = ['W'] then (pl.x, pl.y - 1)
  else if dir = ['A'] then (pl.x - 1, pl.y)
  else if dir = ['S'] then (pl.x, min (pl.y + 1) (g.grid_height - 1))
  else (min (pl.x + 1) (g.grid_width - 1), pl.y)

/-- Spec-side definition, following the spec's words for collision
resolution (§4.4): if the new cell is a treasure, award +10 and remove the
cell from the treasure set; else if it is a trap, reset the score to 0 and
remove the cell from the trap set; both pickups are one-time.  Returns
(new score, new treasures, new traps). -/
def specCollision (g : GameState) (c : Nat × Nat) (score : Int) :
    Int × List (Nat × Nat) × List (Nat × Nat) :=
  if c ∈ g.treasures then
    (score + 10, g.treasures.filter (fun d => d ≠ c), g.traps)
  else if c ∈ g.traps then
    ((0 : Int), g.treasures, g.traps.filter (fun d => d ≠ c))
  else (score, g.treasures, g.traps)

def c1_s1 : ServerState :=
  (handle_message (handle_message initServer (chars "1:connect") 8081).1
    (chars "1:MOVE:D") 8081).1

def c3_world : GameState :=
  { grid_width := 10, grid_height := 10, players := [], treasures := [(2, 3)],
    traps := [], time_remaining := 60 }

def c3_view0 : ClientView :=
  { local_port := 8081, player_state := { x := 0, y := 0, score := 0 },
    players := [], treasures := [], traps := [], time_remaining := 60 }

def c4_view0 : ClientView :=
  { local_port := 8082, player_state := { x := 0, y := 0, score := 0 },
    players := [], treasures := [], traps := [], time_remaining := 60 }

/-- A reachable server state for C8: port 8081 connects and walks onto the
treasure at (2,3), ending at position (2,3) with score 10. -/
def c8_before : ServerState :=
  List.foldl (fun s m => (handle_message s m 8081).1) initServer
    [chars "1:connect", chars "1:MOVE:D", chars "2:MOVE:D",
     chars "3:MOVE:S", chars "4:MOVE:S", chars "5:MOVE:S"]

def c8_after : ServerState := (handle_message c8_before (chars "6:connect") 8081).1

/-- Concrete server state for the C5 witness: one admitted player at (2,2),
one step below the treasure at (2,3). -/
def c5_s : ServerState :=
  { clients := [(7, { last_sequence := 0, addr := 7 })]
    game_state :=
      { grid_width := 10
        grid_height := 10
        players := [(7, { x := 2, y := 2, score := 0 })]
        treasures := [(2, 3), (5, 5)]
        traps := [(3, 3), (6, 6)]
        time_remaining := 60 } }

theorem lookupA_insertA_self {α : Type} (k : Nat) (v : α) (l : List (Nat × α)) :
    lookupA k (insertA k v l) = some v := by
  induction l with
  | nil => simp [insertA, lookupA]
  | cons hd t ih =>
    obtain ⟨k0, v0⟩ := hd
    by_cases hk : k0 = k
    · simp [insertA, hk, lookupA]
    · simp [insertA, hk, lookupA, ih]

theorem length_insertA {α : Type} (k : Nat) (v : α) (l : List (Nat × α))
    (h : lookupA k l ≠ none) : (insertA k v l).length = l.length := by
  induction l with
  | nil => simp [lookupA] at h
  | cons hd t ih =>
    obtain ⟨k0, v0⟩ := hd
    by_cases hk : k0 = k
    · simp [insertA, hk]
    · simp [lookupA, hk] at h
      simp [insertA, hk, ih h]

theorem lookupA_updateA_self {α : Type} (k : Nat) (v w : α) (l : List (Nat × α))
    (h : lookupA k l = some w) : lookupA k (updateA k v l) = some v := by
  induction l with
  | nil => simp [lookupA] at h
  | cons hd t ih =>
    obtain ⟨k0, v0⟩ := hd
    by_cases hk : k0 = k
    · simp [updateA, hk, lookupA]
    · simp [lookupA, hk] at h
      simp [updateA, hk, lookupA, ih h]

theorem mem_insertA {α : Type} {k' : Nat} {v' : α} (k : Nat) (v : α) (l : List (Nat × α))
    (h : (k', v') ∈ insertA k v l) : (k' = k ∧ v' = v) ∨ (k', v') ∈ l := by
  induction l with
  | nil => simp [insertA] at h; exact Or.inl h
  | cons hd t ih =>
    obtain ⟨k0, v0⟩ := hd
    by_cases hk : k0 = k
    · simp [insertA, hk] at h
      rcases h with h | h
      · exact Or.inl h
      · exact Or.inr (List.mem_cons_of_mem _ h)
    · simp [insertA, hk] at h
      rcases h with h | h
      · exact Or.inr (by simp [h])
      · rcases ih h with h2 | h2
        · exact Or.inl h2
        · exact Or.inr (List.mem_cons_of_mem _ h2)

theorem mem_updateA {α : Type} {k' : Nat} {v' : α} (k : Nat) (v : α) (l : List (Nat × α))
    (h : (k', v') ∈ updateA k v l) : (k' = k ∧ v' = v) ∨ (k', v') ∈ l := by
  induction l with
  | nil => simp [updateA] at h
  | cons hd t ih =>
    obtain ⟨k0, v0⟩ := hd
    by_cases hk : k0 = k
    · simp [updateA, hk] at h
      rcases h with h | h
      · exact Or.inl h
      · exact Or.inr (List.mem_cons_of_mem _ h)
    · simp [updateA, hk] at h
      rcases h with h | h
      · exact Or.inr (by simp [h])
      · rcases ih h with h2 | h2
        · exact Or.inl h2
        · exact Or.inr (List.mem_cons_of_mem _ h2)

theorem listIsPfx_append (p r : Str) : listIsPfx p (p ++ r) = true := by
  induction p with
  | nil => rfl
  | cons c t ih => simp [listIsPfx, ih]

theorem handle_message_connect (s : ServerState) (m : Str) (p : Nat)
    (h : strContains m (chars ":connect") = true) :
    handle_message s m p = handle_connect s p := by
  simp [handle_message, h]

theorem handle_message_unparseable (s : ServerState) (m : Str) (p : Nat)
    (h1 : strContains m (chars ":connect") = false)
    (h2 : parse_message m = none) :
    handle_message s m p = (s, []) := by
  simp [handle_message, h1, h2]

theorem handle_message_ack_only (s : ServerState) (m content : Str) (p seq : Nat)
    (h1 : strContains m (chars ":connect") = false)
    (h2 : parse_message m = some (seq, content))
    (h3 : listIsPfx (chars "MOVE:") content = false) :
    handle_message s m p = (s, [(p, chars "ACK:" ++ natToStr seq)]) := by
  simp [handle_message, h1, h2, h3]

theorem handle_message_move_none (s : ServerState) (m content : Str) (p seq : Nat)
    (h1 : strContains m (chars ":connect") = false)
    (h2 : parse_message m = some (seq, content))
    (h3 : listIsPfx (chars "MOVE:") content = true)
    (h4 : lookupA p s.game_state.players = none) :
    handle_message s m p = (s, [(p, chars "ACK:" ++ natToStr seq)]) := by
  simp [handle_message, h1, h2, h3, h4]

theorem handle_message_move_some (s : ServerState) (m content : Str) (p seq : Nat)
    (player : PlayerState)
    (h1 : strContains m (chars ":connect") = false)
    (h2 : parse_message m = some (seq, content))
    (h3 : listIsPfx (chars "MOVE:") content = true)
    (h4 : lookupA p s.game_state.players = some player) :
    handle_message s m p =
      ({ s with game_state := { s.game_state with
           players := updateA p
             (resolveCollision s.game_state (movePlayer s.game_state player (content.drop 5))).1
             s.game_state.players
           treasures :=
             (resolveCollision s.game_state (movePlayer s.game_state player (content.drop 5))).2.1
           traps :=
             (resolveCollision s.game_state (movePlayer s.game_state player (content.drop 5))).2.2 } },
       [(p, chars "ACK:" ++ natToStr seq)]) := by
  simp [handle_message, h1, h2, h3, h4]

/-- C1: the server has no working dedup filter.  Starting from a freshly
connected client at port 8081, the sequenced command `1:MOVE:D` is accepted
and acknowledged; resending the very same sequence number 1 is acknowledged
again and moves the player a second time (from (1,0) to (2,0)), and the
stored `last_sequence` is still its initial 0 — the code never reads or
updates it, contradicting the claimed reject-on-`sequence ≤ last-accepted`
policy. -/
theorem c1_duplicate_sequence_mutates_again :
    lookupA 8081 c1_s1.game_state.players = some { x := 1, y := 0, score := 0 } ∧
    (handle_message c1_s1 (chars "1:MOVE:D") 8081).2 = [(8081, chars "ACK:1")] ∧
    lookupA 8081 (handle_message c1_s1 (chars "1:MOVE:D") 8081).1.game_state.players
      = some { x := 2, y := 0, score := 0 } ∧
    (lookupA 8081 c1_s1.clients).map Client.last_sequence = some 0 := by
  decide

/-- C2: `GameClient::send_message` transmits exactly one datagram per call and
returns immediately with the wrapping-incremented sequence number; it never
waits for an acknowledgment, never retries, and has no `RETRY_LIMIT` or
`SendTimeout` failure path. -/
theorem c2_send_transmits_once_and_returns (st : SendState) (m : Str) :
    ((send_message st m).2).length = 1 ∧
    (send_message st m).1.sequence_number = (st.sequence_number + 1) % 2 ^ 32 :=
  ⟨rfl, rfl⟩

/-- C3: the snapshot round trip fails.  For the world with no players, one
treasure at (2,3) and no traps, the client's parser decodes the server's own
encoding to an empty treasure list (it never strips the `TREASURES:` prefix
and splits each tuple on commas a second time), so
`decode (encode snapshot) ≠ snapshot`. -/
theorem c3_roundtrip_fails :
    (parse_game_state c3_view0 (encode_game_state c3_world)).map ClientView.treasures
      = some [] ∧
    c3_world.treasures = [(2, 3)] := by
  decide

/-- C4: snapshot decoding is not total on records with at least four
top-level segments: on `"GAME_STATE|TIME:1|x|yy|"` (five segments) the Rust
code panics — `t[1..t.len()-1]` is evaluated on the empty trap piece, an
out-of-bounds byte-range slice — modelled here as `none`. -/
theorem c4_decode_panics_on_four_segment_record :
    4 ≤ (splitOnC '|' (chars "GAME_STATE|TIME:1|x|yy|")).length ∧
    parse_game_state c4_view0 (chars "GAME_STATE|TIME:1|x|yy|") = none := by
  decide

/-- C7: while fewer than 3 sessions exist, any datagram containing
`:connect` admits the sender: a `PlayerState` at (0,0) with score 0 is
created under the sender's port and `ACK:connect` is sent back; once 3
sessions exist a further connect is ignored silently — the state is
unchanged and no datagram at all is sent. -/
theorem c7_connect_admission (s : ServerState) (m : Str) (p : Nat)
    (hc : strContains m (chars ":connect") = true) :
    (s.clients.length < 3 →
      lookupA p (handle_message s m p).1.game_state.players
        = some { x := 0, y := 0, score := 0 } ∧
      (handle_message s m p).2 = [(p, chars "ACK:connect")]) ∧
    (3 ≤ s.clients.length →
      (handle_message s m p).1 = s ∧ (handle_message s m p).2 = []) := by
  rw [handle_message_connect s m p hc]
  constructor
  · intro hlen
    have hlt : s.clients.length < MAX_CLIENTS := by simpa [MAX_CLIENTS] using hlen
    simp [handle_connect, hlt, lookupA_insertA_self]
  · intro hlen
    have hlt : ¬ s.clients.length < MAX_CLIENTS := by simp [MAX_CLIENTS]; omega
    simp [handle_connect, hlt]

/-- Witness for C7 at a concrete input: the empty server admits port 8081. -/
theorem c7_connect_admission_witness :
    strContains (chars "1:connect") (chars ":connect") = true ∧
    ((initServer.clients.length < 3 →
      lookupA 8081 (handle_message initServer (chars "1:connect") 8081).1.game_state.players
        = some { x := 0, y := 0, score := 0 } ∧
      (handle_message initServer (chars "1:connect") 8081).2
        = [(8081, chars "ACK:connect")]) ∧
    (3 ≤ initServer.clients.length →
      (handle_message initServer (chars "1:connect") 8081).1 = initServer ∧
      (handle_message initServer (chars "1:connect") 8081).2 = [])) :=
  ⟨by decide, c7_connect_admission initServer (chars "1:connect") 8081 (by decide)⟩

/-- C10: a well-formed sequenced MOVE command from a port with no admitted
player is acknowledged with `ACK:<sequence>` while the whole server state
(players, treasures, traps, time, sessions) is left untouched. -/
theorem c10_unadmitted_move_is_pure_ack (s : ServerState) (m content : Str) (p seq : Nat)
    (h1 : strContains m (chars ":connect") = false)
    (h2 : parse_message m = some (seq, content))
    (h3 : listIsPfx (chars "MOVE:") content = true)
    (h4 : lookupA p s.game_state.players = none) :
    handle_message s m p = (s, [(p, chars "ACK:" ++ natToStr seq)]) :=
  handle_message_move_none s m content p seq h1 h2 h3 h4

/-- Witness for C10 at a concrete input: `5:MOVE:W` from the unadmitted
port 9 against the initial server. -/
theorem c10_unadmitted_move_is_pure_ack_witness :
    parse_message (chars "5:MOVE:W") = some (5, chars "MOVE:W") ∧
    handle_message initServer (chars "5:MOVE:W") 9
      = (initServer, [(9, chars "ACK:" ++ natToStr 5)]) :=
  ⟨by decide,
   c10_unadmitted_move_is_pure_ack initServer (chars "5:MOVE:W") (chars "MOVE:W") 9 5
     (by decide) (by decide) (by decide) (by decide)⟩

/-- C8's claim fails on the code: a duplicate connect from the already
admitted port 8081 (player at (2,3) with score 10, one session, capacity not
reached) re-inserts a fresh `PlayerState`, resetting position and score to
(0,0,0) instead of leaving the existing player's state unchanged. -/
theorem c8_duplicate_connect_resets_player :
    c8_before.clients.length < 3 ∧
    lookupA 8081 c8_before.game_state.players = some { x := 2, y := 3, score := 10 } ∧
    lookupA 8081 c8_after.game_state.players = some { x := 0, y := 0, score := 0 } ∧
    lookupA 8081 c8_after.game_state.players ≠
      lookupA 8081 c8_before.game_state.players := by
  decide

/-- C8 (amended): a duplicate connect from an endpoint that already has a
session never creates a second `PlayerState` — the player and session counts
are unchanged and the key stays the same — but while fewer than 3 sessions
exist it resets that player's state to (0,0) with score 0, and once 3
sessions exist it is ignored entirely (state unchanged, nothing sent). -/
theorem c8_amended_duplicate_connect (s : ServerState) (m : Str) (p : Nat)
    (hc : strContains m (chars ":connect") = true)
    (hcl : lookupA p s.clients ≠ none)
    (hpl : lookupA p s.game_state.players ≠ none) :
    (handle_message s m p).1.game_state.players.length = s.game_state.players.length ∧
    (handle_message s m p).1.clients.length = s.clients.length ∧
    (s.clients.length < 3 →
      lookupA p (handle_message s m p).1.game_state.players
        = some { x := 0, y := 0, score := 0 }) ∧
    (3 ≤ s.clients.length →
      (handle_message s m p).1 = s ∧ (handle_message s m p).2 = []) := by
  rw [handle_message_connect s m p hc]
  by_cases hlt : s.clients.length < MAX_CLIENTS
  · refine ⟨?_, ?_, ?_, ?_⟩
    · simp [handle_connect, hlt, length_insertA _ _ _ hpl]
    · simp [handle_connect, hlt, length_insertA _ _ _ hcl]
    · intro _
      simp [handle_connect, hlt, lookupA_insertA_self]
    · intro hge
      exfalso
      simp [MAX_CLIENTS] at hlt
      omega
  · refine ⟨?_, ?_, ?_, ?_⟩
    · simp [handle_connect, hlt]
    · simp [handle_connect, hlt]
    · intro hlt3
      exfalso
      simp [MAX_CLIENTS] at hlt
      omega
    · intro _
      simp [handle_connect, hlt]

/-- Witness for the amended C8 at a concrete input: the reachable state
`c8_before` receives a duplicate connect from port 8081. -/
theorem c8_amended_duplicate_connect_witness :
    strContains (chars "6:connect") (chars ":connect") = true ∧
    ((handle_message c8_before (chars "6:connect") 8081).1.game_state.players.length
        = c8_before.game_state.players.length ∧
     (handle_message c8_before (chars "6:connect") 8081).1.clients.length
        = c8_before.clients.length ∧
     (c8_before.clients.length < 3 →
       lookupA 8081 (handle_message c8_before (chars "6:connect") 8081).1.game_state.players
         = some { x := 0, y := 0, score := 0 }) ∧
     (3 ≤ c8_before.clients.length →
       (handle_message c8_before (chars "6:connect") 8081).1 = c8_before ∧
       (handle_message c8_before (chars "6:connect") 8081).2 = [])) :=
  ⟨by decide,
   c8_amended_duplicate_connect c8_before (chars "6:connect") 8081
     (by decide) (by decide) (by decide)⟩

theorem handle_message_time (s : ServerState) (m : Str) (p : Nat) :
    (handle_message s m p).1.game_state.time_remaining = s.game_state.time_remaining := by
  by_cases hc : strContains m (chars ":connect") = true
  · rw [handle_message_connect s m p hc]
    unfold handle_connect
    split <;> rfl
  · rw [Bool.not_eq_true] at hc
    cases hp : parse_message m with
    | none => rw [handle_message_unparseable s m p hc hp]
    | some sc =>
      obtain ⟨seq, content⟩ := sc
      by_cases h3 : listIsPfx (chars "MOVE:") content = true
      · cases hl : lookupA p s.game_state.players with
        | none => rw [handle_message_move_none s m content p seq hc hp h3 hl]
        | some player => rw [handle_message_move_some s m content p seq player hc hp h3 hl]
      · rw [Bool.not_eq_true] at h3
        rw [handle_message_ack_only s m content p seq hc hp h3]

/-- C9: the server has no tick.  `time_remaining` is 60 in every reachable
state — no handler ever decrements it — so the broadcast `TIME` field never
decreases, contradicting the claimed once-per-tick countdown. -/
theorem c9_time_remaining_constant (s : ServerState) (h : Reach s) :
    s.game_state.time_remaining = 60 := by
  induction h with
  | init => rfl
  | step s m p hr ih => rw [handle_message_time]; exact ih

/-- Witness for C9 at a concrete reachable state (after one connect). -/
theorem c9_time_remaining_constant_witness :
    (handle_message initServer (chars "1:connect") 8081).1.game_state.time_remaining = 60 :=
  c9_time_remaining_constant _ (Reach.step initServer (chars "1:connect") 8081 Reach.init)

theorem lookupA_mem {α : Type} {k : Nat} {v : α} (l : List (Nat × α))
    (h : lookupA k l = some v) : (k, v) ∈ l := by
  induction l with
  | nil => simp [lookupA] at h
  | cons hd t ih =>
    obtain ⟨k0, v0⟩ := hd
    by_cases hk : k0 = k
    · simp [lookupA, hk] at h
      simp [hk, h]
    · simp [lookupA, hk] at h
      exact List.mem_cons_of_mem _ (ih h)

theorem movePlayer_bounds (g : GameState) (q : PlayerState) (d : Str)
    (hx : q.x < g.grid_width) (hy : q.y < g.grid_height) :
    (movePlayer g q d).x < g.grid_width ∧ (movePlayer g q d).y < g.grid_height := by
  unfold movePlayer
  split_ifs <;> constructor <;> (try simp) <;> omega

theorem resolveCollision_pos (g : GameState) (q : PlayerState) :
    (resolveCollision g q).1.x = q.x ∧ (resolveCollision g q).1.y = q.y := by
  simp only [resolveCollision]
  split_ifs <;> simp

theorem handle_message_bounds (s : ServerState) (m : Str) (p : Nat)
    (ih : s.game_state.grid_width = 10 ∧ s.game_state.grid_height = 10 ∧
      ∀ q ∈ s.game_state.players, q.2.x < 10 ∧ q.2.y < 10) :
    (handle_message s m p).1.game_state.grid_width = 10 ∧
    (handle_message s m p).1.game_state.grid_height = 10 ∧
    ∀ q ∈ (handle_message s m p).1.game_state.players, q.2.x < 10 ∧ q.2.y < 10 := by
  obtain ⟨hw, hh, hb⟩ := ih
  by_cases hc : strContains m (chars ":connect") = true
  · rw [handle_message_connect s m p hc]
    unfold handle_connect
    split
    · refine ⟨hw, hh, ?_⟩
      intro q hq
      obtain ⟨qk, qv⟩ := q
      rcases mem_insertA p _ _ hq with h | h
      · simp [h.2]
      · exact hb _ h
    · exact ⟨hw, hh, hb⟩
  · rw [Bool.not_eq_true] at hc
    cases hp : parse_message m with
    | none =>
      rw [handle_message_unparseable s m p hc hp]
      exact ⟨hw, hh, hb⟩
    | some sc =>
      obtain ⟨seq, content⟩ := sc
      by_cases h3 : listIsPfx (chars "MOVE:") content = true
      · cases hl : lookupA p s.game_state.players with
        | none =>
          rw [handle_message_move_none s m content p seq hc hp h3 hl]
          exact ⟨hw, hh, hb⟩
        | some player =>
          rw [handle_message_move_some s m content p seq player hc hp h3 hl]
          refine ⟨hw, hh, ?_⟩
          intro q hq
          obtain ⟨qk, qv⟩ := q
          rcases mem_updateA p _ _ hq with h | h
          · have hpl := hb _ (lookupA_mem _ hl)
            have hmv := movePlayer_bounds s.game_state player (content.drop 5)
              (by rw [hw]; exact hpl.1) (by rw [hh]; exact hpl.2)
            have hrc := resolveCollision_pos s.game_state
              (movePlayer s.game_state player (content.drop 5))
            rw [h.2]
            constructor
            · rw [hrc.1]; rw [hw] at hmv; exact hmv.1
            · rw [hrc.2]; rw [hh] at hmv; exact hmv.2
          · exact hb _ h
      · rw [Bool.not_eq_true] at h3
        rw [handle_message_ack_only s m content p seq hc hp h3]
        exact ⟨hw, hh, hb⟩

theorem reach_bounds (s : ServerState) (h : Reach s) :
    s.game_state.grid_width = 10 ∧ s.game_state.grid_height = 10 ∧
    ∀ q ∈ s.game_state.players, q.2.x < 10 ∧ q.2.y < 10 := by
  induction h with
  | init =>
    refine ⟨rfl, rfl, ?_⟩
    intro q hq
    simp [initServer] at hq
  | step s m p hr ih => exact handle_message_bounds s m p ih

/-- C6: in every reachable server state, every admitted player's position is
inside the grid: `x ≤ width-1` and `y ≤ height-1`.  Holds at connect
initialization and is preserved by every handled datagram (broadcasting does
not change the state). -/
theorem c6_positions_within_bounds (s : ServerState) (h : Reach s) (p : Nat)
    (pl : PlayerState) (hm : (p, pl) ∈ s.game_state.players) :
    pl.x ≤ s.game_state.grid_width - 1 ∧ pl.y ≤ s.game_state.grid_height - 1 := by
  obtain ⟨hw, hh, hb⟩ := reach_bounds s h
  have hq := hb (p, pl) hm
  simp at hq
  rw [hw, hh]
  omega

/-- Witness for C6 at a concrete reachable state (after one connect). -/
theorem c6_positions_within_bounds_witness :
    ((8081 : Nat), ({ x := 0, y := 0, score := 0 } : PlayerState)) ∈
      (handle_message initServer (chars "1:connect") 8081).1.game_state.players ∧
    (({ x := 0, y := 0, score := 0 } : PlayerState).x ≤
       (handle_message initServer (chars "1:connect") 8081).1.game_state.grid_width - 1 ∧
     ({ x := 0, y := 0, score := 0 } : PlayerState).y ≤
       (handle_message initServer (chars "1:connect") 8081).1.game_state.grid_height - 1) :=
  ⟨by decide,
   c6_positions_within_bounds _ (Reach.step initServer (chars "1:connect") 8081 Reach.init)
     8081 _ (by decide)⟩

theorem movePlayer_eq_spec (g : GameState) (pl : PlayerState) (dir : Str)
    (hd : dir = ['W'] ∨ dir = ['A'] ∨ dir = ['S'] ∨ dir = ['D'])
    (hx : pl.x < g.grid_width) (hy : pl.y < g.grid_height) :
    movePlayer g pl dir =
      { x := (specMovedPos g pl dir).1, y := (specMovedPos g pl dir).2,
        score := pl.score } := by
  obtain ⟨px, py, psc⟩ := pl
  simp only [] at hx hy
  rcases hd with rfl | rfl | rfl | rfl <;>
    simp only [movePlayer, specMovedPos, if_true, if_pos, reduceIte] <;>
    split_ifs <;>
    simp_all [PlayerState.mk.injEq] <;>
    omega

theorem resolveCollision_eq_spec (g : GameState) (q : PlayerState)
    (hdisj : ∀ c ∈ g.treasures, c ∉ g.traps) :
    resolveCollision g q =
      ({ x := q.x, y := q.y, score := (specCollision g (q.x, q.y) q.score).1 },
       (specCollision g (q.x, q.y) q.score).2.1,
       (specCollision g (q.x, q.y) q.score).2.2) := by
  obtain ⟨qx, qy, qs⟩ := q
  by_cases ht : ((qx, qy) : Nat × Nat) ∈ g.treasures
  · have hnt : ((qx, qy) : Nat × Nat) ∉ g.traps := hdisj _ ht
    simp [resolveCollision, specCollision, ht, hnt]
  · by_cases htr : ((qx, qy) : Nat × Nat) ∈ g.traps
    · simp [resolveCollision, specCollision, ht, htr]
    · simp [resolveCollision, specCollision, ht, htr]

/-- C5: for an admitted, in-bounds player and direction in {W,A,S,D}, a
sequenced MOVE command moves the player exactly as the spec says — W, A, S, D
shift by (Δy=-1), (Δx=-1), (Δy=+1), (Δx=+1), clamped at the grid edges — and
collision then behaves as specified: landing on a treasure adds 10 to the
score and removes that cell from the treasure set, else landing on a trap
resets the score to 0 and removes that cell from the trap set (the
disjointness hypothesis reflects the spec's "a cell is never both").  Both
pickups are therefore one-time. -/
theorem c5_move_semantics (s : ServerState) (m dir : Str) (p seq : Nat) (pl : PlayerState)
    (h1 : strContains m (chars ":connect") = false)
    (h2 : parse_message m = some (seq, chars "MOVE:" ++ dir))
    (hd : dir = ['W'] ∨ dir = ['A'] ∨ dir = ['S'] ∨ dir = ['D'])
    (hm : lookupA p s.game_state.players = some pl)
    (hx : pl.x < s.game_state.grid_width) (hy : pl.y < s.game_state.grid_height)
    (hdisj : ∀ c ∈ s.game_state.treasures, c ∉ s.game_state.traps) :
    lookupA p (handle_message s m p).1.game_state.players =
      some { x := (specMovedPos s.game_state pl dir).1,
             y := (specMovedPos s.game_state pl dir).2,
             score := (specCollision s.game_state (specMovedPos s.game_state pl dir)
               pl.score).1 } ∧
    (handle_message s m p).1.game_state.treasures =
      (specCollision s.game_state (specMovedPos s.game_state pl dir) pl.score).2.1 ∧
    (handle_message s m p).1.game_state.traps =
      (specCollision s.game_state (specMovedPos s.game_state pl dir) pl.score).2.2 := by
  have h3 : listIsPfx (chars "MOVE:") (chars "MOVE:" ++ dir) = true := listIsPfx_append _ _
  rw [handle_message_move_some s m (chars "MOVE:" ++ dir) p seq pl h1 h2 h3 hm]
  have hdrop : (chars "MOVE:" ++ dir).drop 5 = dir := by
    rw [show (5 : Nat) = (chars "MOVE:").length from rfl]
    exact List.drop_left _ _
  rw [hdrop, movePlayer_eq_spec s.game_state pl dir hd hx hy,
      resolveCollision_eq_spec s.game_state _ hdisj]
  refine ⟨?_, rfl, rfl⟩
  rw [lookupA_updateA_self p _ pl _ hm]

/-- Witness for C5 at a concrete input: the player at (2,2) in `c5_s` moves S
onto the treasure at (2,3) and scores 10. -/
theorem c5_move_semantics_witness :
    parse_message (chars "3:MOVE:S") = some (3, chars "MOVE:" ++ ['S']) ∧
    (lookupA 7 (handle_message c5_s (chars "3:MOVE:S") 7).1.game_state.players =
      some { x := (specMovedPos c5_s.game_state { x := 2, y := 2, score := 0 } ['S']).1,
             y := (specMovedPos c5_s.game_state { x := 2, y := 2, score := 0 } ['S']).2,
             score := (specCollision c5_s.game_state
               (specMovedPos c5_s.game_state { x := 2, y := 2, score := 0 } ['S'])
               ({ x := 2, y := 2, score := 0 } : PlayerState).score).1 } ∧
    (handle_message c5_s (chars "3:MOVE:S") 7).1.game_state.treasures =
      (specCollision c5_s.game_state
        (specMovedPos c5_s.game_state { x := 2, y := 2, score := 0 } ['S'])
        ({ x := 2, y := 2, score := 0 } : PlayerState).score).2.1 ∧
    (handle_message c5_s (chars "3:MOVE:S") 7).1.game_state.traps =
      (specCollision c5_s.game_state
        (specMovedPos c5_s.game_state { x := 2, y := 2, score := 0 } ['S'])
        ({ x := 2, y := 2, score := 0 } : PlayerState).score).2.2) :=
  ⟨by decide,
   c5_move_semantics c5_s (chars "3:MOVE:S") ['S'] 7 3 { x := 2, y := 2, score := 0 }
     (by decide) (by decide) (by decide) (by decide) (by decide) (by decide) (by decide)⟩
